import Mathlib

/-!
Verification of the network-plotting script `pysar/plot_network.py`.

The script is a linear pipeline: read dates/baselines, read the pair
(date12) list, read drop annotations, optionally read and align a
coherence list, then plot.  We shallowly embed the list/set logic of
`main` (and the file-existence gate in front of the coherence read)
and prove or refute the specification claims about it.

Modelling conventions:
* An acquisition date ("date8", an 8-digit date string) is a `Nat`;
  since all date strings have the same length and consist of digits,
  Python's lexicographic string order coincides with the numeric order.
* A pair identifier ("date12", a string `"date1-date2"`) is a pair of
  dates `Nat × Nat`; `s.split('-')[0]` / `[1]` become `Prod.fst` /
  `Prod.snd`, and lexicographic string order on the `"d1-d2"` strings
  coincides with lexicographic order on the pairs.
* A coherence value is either a rational number or NaN (`CohVal`);
  the script only ever tests NaN-ness and moves values around, so no
  floating-point arithmetic needs to be modelled.
* Python runtime errors (`ValueError` from `raise` and `list.index`,
  `UnboundLocalError`/`NameError` for an unassigned local,
  `TypeError` for subscripting `None`, `IndexError` for out-of-range
  subscripts) are modelled with `Except PyError`.
* Lists produced by the external readers (`ut.spatial_average`,
  `ut.check_drop_ifgram`, `ptime.ifgram_date_list`,
  `pnet.get_date12_list`, `pnet.read_baseline_file`) are taken as
  parameters: the claims are about what `main` does with them.
-/

/-- 8-digit acquisition date string, e.g. "20070709". -/
abbrev Date8 := Nat

/-- Pair identifier string "date1-date2". -/
abbrev Date12 := Nat × Nat

/-- Coherence value: a float that may be NaN (`np.isnan`). -/
inductive CohVal where
  | nan : CohVal
  | val : ℚ → CohVal
deriving DecidableEq, Repr

/-- `np.isnan` on a coherence value. -/
def CohVal.isnan : CohVal → Bool
  | .nan => true
  | .val _ => false

/-- Python runtime errors raised by the modelled code. -/
inductive PyError where
  | valueError : PyError
  | nameError : PyError
  | typeError : PyError
  | indexError : PyError
deriving DecidableEq, Repr

/-- Python `set(l)`: the distinct elements of `l` (order irrelevant for
our uses, which always sort afterwards). -/
def pySet {α : Type} [DecidableEq α] (l : List α) : List α := l.dedup

/-- Python `set(a) - set(b)`: distinct elements of `a` not in `b`. -/
def pySetDiff {α : Type} [DecidableEq α] (a b : List α) : List α :=
  (pySet a).filter (fun x => decide (x ∉ b))

/-- Python `set(a) >= set(b)`: superset test on the element sets. -/
def pySupersetEq {α : Type} [DecidableEq α] (a b : List α) : Bool :=
  b.all (fun x => decide (x ∈ a))

/-- Python `set(a) > set(b)`: strict (proper) superset test. -/
def pyStrictSuperset {α : Type} [DecidableEq α] (a b : List α) : Bool :=
  pySupersetEq a b && !(pySupersetEq b a)

/-- Python `l.index(x)`: first index of `x`, `ValueError` if absent. -/
def pyIndex {α : Type} [DecidableEq α] (l : List α) (x : α) : Except PyError Nat :=
  if x ∈ l then .ok (l.indexOf x) else .error .valueError

/-- Python `l[i]` for a non-negative index: `IndexError` if out of range. -/
def pyGetItem {α : Type} (l : List α) (i : Nat) : Except PyError α :=
  match l.get? i with
  | some v => .ok v
  | none => .error .indexError

/-- Python truthiness of an optional string (`None` and `""` are falsy). -/
def pyTruthy : Option String → Bool
  | none => false
  | some s => !(s = "")

/-- Comparison backing Python `sorted` on date strings. -/
def date8Le (a b : Date8) : Bool := decide (a ≤ b)

/-- Comparison backing Python `sorted` on "date1-date2" strings:
lexicographic on the date pair. -/
def date12Le (a b : Date12) : Bool := a.1 < b.1 || (a.1 = b.1 && a.2 ≤ b.2)

/-- Python `sorted(list(s))` for a set of dates. -/
def pySorted8 (l : List Date8) : List Date8 := l.mergeSort date8Le

/-- Python `sorted(list(s))` for a set of date12 strings. -/
def pySorted12 (l : List Date12) : List Date12 := l.mergeSort date12Le

/-! ## Drop-annotation stage (`main`, lines 187-205)

For an HDF5 input, `main` computes
`date12_list_drop = sorted(list(set(date12_list) - set(date12_list_keep)))`
and, from the endpoints of the kept pairs,
`date8_list_keep = ptime.yyyymmdd(sorted(list(set(m_dates + s_dates))))`,
`date8_list_drop = sorted(list(set(date8_list) - set(date8_list_keep)))`.
-/

/-- Modelled from the spec: `ptime.yyyymmdd` (module not under `src/`)
normalizes date strings to the 8-digit form; dates are modelled
post-normalization ("an 8-digit date string"), so it is the identity. -/
def yyyymmdd (l : List Date8) : List Date8 := l

/-- `main` line 196: the dropped pair identifiers. -/
def date12ListDrop (date12_list date12_list_keep : List Date12) : List Date12 :=
  pySorted12 (pySetDiff date12_list date12_list_keep)

/-- `main` lines 201-203: the dates kept, i.e. the endpoints of kept pairs. -/
def date8ListKeep (date12_list_keep : List Date12) : List Date8 :=
  yyyymmdd (pySorted8 (pySet (date12_list_keep.map Prod.fst ++ date12_list_keep.map Prod.snd)))

/-- `main` line 204: the dropped acquisition dates. -/
def date8ListDrop (date8_list : List Date8) (date12_list_keep : List Date12) : List Date8 :=
  pySorted8 (pySetDiff date8_list (date8ListKeep date12_list_keep))

/-! ## Coherence alignment stage (`main`, lines 215-226)

After `ut.spatial_average` returns `coherence_list` (value list) and
`coh_date12_list` (its key list), `main` runs:
```
if all(np.isnan(inps.coherence_list)):
    inps.coherence_list = None
if not set(inps.coh_date12_list) >= set(date12_list):
    inps.coherence_list = None
elif set(inps.coh_date12_list) > set(date12_list):
    inps.coherence_list = [inps.coherence_list[inps.coh_date12_list.index(i)]
                           for i in date12_list]
```
The result is `some l` (coherence colouring enabled with list `l`),
`none` (disabled), or a raised Python error.
-/

/-- `coherence_list[coh_date12_list.index(i)]`: direct lookup of the
coherence value associated with pair `i` by the coherence file. -/
def cohLookup (coherence_list : List CohVal) (coh_date12_list : List Date12)
    (i : Date12) : Except PyError CohVal :=
  match pyIndex coh_date12_list i with
  | .error e => .error e
  | .ok idx => pyGetItem coherence_list idx

/-- The list comprehension of line 226,
`[coherence_list[coh_date12_list.index(i)] for i in date12_list]`:
lookups are evaluated left to right and the first raised error
propagates. -/
def cohReindex (coherence_list : List CohVal) (coh_date12_list : List Date12) :
    List Date12 → Except PyError (List CohVal)
  | [] => .ok []
  | i :: rest =>
    match cohLookup coherence_list coh_date12_list i with
    | .error e => .error e
    | .ok v =>
      match cohReindex coherence_list coh_date12_list rest with
      | .error e => .error e
      | .ok vs => .ok (v :: vs)

/-- `main` lines 215-226: NaN check, then superset check and reindexing
of the coherence list against the input file pair list. -/
def coherenceAlignStage (coherence_list : List CohVal) (coh_date12_list : List Date12)
    (date12_list : List Date12) : Except PyError (Option (List CohVal)) :=
  let cl : Option (List CohVal) :=
    if coherence_list.all CohVal.isnan then none else some coherence_list
  if !(pySupersetEq coh_date12_list date12_list) then
    .ok none
  else if pyStrictSuperset coh_date12_list date12_list then
    match cl with
    | none => .error .typeError
    | some l =>
        match cohReindex l coh_date12_list date12_list with
        | .error e => .error e
        | .ok newl => .ok (some newl)
  else
    .ok cl

/-! ## File-existence gate in front of the coherence read
(`main`, lines 208-213)

```
inps.coherence_list = None
if inps.coherence_file and os.path.isfile(inps.coherence_file):
    if inps.mask_file and not os.path.isfile(inps.mask_file):
        inps.mask_file = None
    inps.coherence_list, inps.coh_date12_list = ut.spatial_average(...)
```
`existing` models the set of paths for which `os.path.isfile` is true.
The result is `none` when the coherence read is skipped entirely
(colouring stays disabled), or `some mask` when `ut.spatial_average`
is called with the (possibly silently nulled) mask file.
-/

/-- `main` lines 208-213: decide whether to read coherence and with
which mask file. -/
def coherenceGate (existing : List String)
    (coherence_file mask_file : Option String) : Option (Option String) :=
  if pyTruthy coherence_file && decide (coherence_file.getD "" ∈ existing) then
    some (if pyTruthy mask_file && !(decide (mask_file.getD "" ∈ existing)) then
            none
          else mask_file)
  else
    none

/-! ## Read-info and drop pipeline (`main`, lines 166-205)

`NetworkFile` models the facts a given input file determines: its
extension, the `FILE_TYPE` attribute its header would report if read
as HDF5, and the lists the external readers extract from it.
-/

/-- The input file as the external readers see it. -/
structure NetworkFile where
  /-- `os.path.splitext(inps.file)[1]` -/
  ext : String
  /-- The file path itself (`inps.file`). -/
  path : String
  /-- `readfile.read_attribute(inps.file)['FILE_TYPE']` -/
  fileType : String
  /-- `ptime.ifgram_date_list(inps.file)` -/
  date8 : List Date8
  /-- `ut.perp_baseline_ifgram2timeseries(inps.file)[0]` -/
  pbase : List ℚ
  /-- `pnet.get_date12_list(inps.file)` -/
  date12 : List Date12
  /-- `ptime.list_ifgram2date12(ut.check_drop_ifgram(h5))`: the pairs
  marked as kept by the file's internal drop flags. -/
  keepPairs : List Date12

/-- The baseline list file (`pnet.read_baseline_file(inps.bl_list_file)[0:2]`). -/
structure BaselineList where
  date8 : List Date8
  pbase : List ℚ

/-- State after the read-info stage (lines 166-180). -/
structure ReadInfoResult where
  date8_list : List Date8
  pbase_list : List ℚ
  /-- The local variable `k`, assigned only in the `.h5` branch. -/
  k : Option String
  coherence_file : Option String

/-- `main` lines 166-180: read dates and baselines.  For `.h5` files the
`FILE_TYPE` attribute is checked against `multi_group_hdf5_file` and a
`ValueError` is raised for unsupported types; every other extension is
read as a baseline list text file, leaving `k` unassigned. -/
def readInfoStage (multi_group_hdf5_file : List String) (f : NetworkFile)
    (bl : BaselineList) (coherence_file : Option String) :
    Except PyError ReadInfoResult :=
  if f.ext = ".h5" then
    let k := f.fileType
    if k ∉ multi_group_hdf5_file then
      .error .valueError
    else
      let cf := if pyTruthy coherence_file = false ∧ k = "coherence" then some f.path
                else coherence_file
      .ok ⟨f.date8, f.pbase, some k, cf⟩
  else
    .ok ⟨bl.date8, bl.pbase, none, coherence_file⟩

/-- `main` lines 187-205: the drop-annotation stage.  It runs for the
extensions `.h5` and `.he5`; line 192 (`sorted(h5[k].keys())`) reads the
local variable `k`, which raises `UnboundLocalError` when the read-info
stage did not assign it (modelled as `PyError.nameError`).  Returns
`(date8_list_drop, date12_list_drop)`. -/
def dropStage (f : NetworkFile) (k : Option String) (date8_list : List Date8)
    (date12_list : List Date12) : Except PyError (List Date8 × List Date12) :=
  if f.ext = ".h5" ∨ f.ext = ".he5" then
    match k with
    | none => .error .nameError
    | some _ =>
        let date12_list_keep := f.keepPairs
        .ok (date8ListDrop date8_list date12_list_keep,
             date12ListDrop date12_list date12_list_keep)
  else
    .ok ([], [])

/-- `main` lines 166-205 composed: read info, read pairs, read drop
annotations.  Returns the read-info result together with the pair list
and the two dropped lists; plotting happens only after this prefix. -/
def pipelinePrefix (multi_group_hdf5_file : List String) (f : NetworkFile)
    (bl : BaselineList) (coherence_file : Option String) :
    Except PyError (ReadInfoResult × List Date12 × List Date8 × List Date12) :=
  match readInfoStage multi_group_hdf5_file f bl coherence_file with
  | .error e => .error e
  | .ok r =>
    match dropStage f r.k r.date8_list f.date12 with
    | .error e => .error e
    | .ok d => .ok (r, f.date12, d.1, d.2)

/-! ## Helper lemmas -/

theorem date8Le_trans : ∀ (a b c : Date8),
    date8Le a b = true → date8Le b c = true → date8Le a c = true := by
  intro a b c hab hbc
  simp only [date8Le, decide_eq_true_eq] at *
  exact le_trans hab hbc

theorem date8Le_total : ∀ (a b : Date8), (date8Le a b || date8Le b a) = true := by
  intro a b
  simp only [date8Le, Bool.or_eq_true, decide_eq_true_eq]
  exact le_total a b

theorem date12Le_trans : ∀ (a b c : Date12),
    date12Le a b = true → date12Le b c = true → date12Le a c = true := by
  intro a b c hab hbc
  simp only [date12Le, Bool.or_eq_true, Bool.and_eq_true, decide_eq_true_eq] at *
  omega

theorem date12Le_total : ∀ (a b : Date12), (date12Le a b || date12Le b a) = true := by
  intro a b
  simp only [date12Le, Bool.or_eq_true, Bool.and_eq_true, decide_eq_true_eq]
  omega

theorem mem_pySetDiff {α : Type} [DecidableEq α] {x : α} {a b : List α} :
    x ∈ pySetDiff a b ↔ x ∈ a ∧ x ∉ b := by
  simp [pySetDiff, pySet, List.mem_filter]

theorem nodup_pySetDiff {α : Type} [DecidableEq α] (a b : List α) :
    (pySetDiff a b).Nodup :=
  (List.nodup_dedup a).filter _

theorem mem_date8ListKeep {d : Date8} {keep : List Date12} :
    d ∈ date8ListKeep keep ↔ ∃ p ∈ keep, p.1 = d ∨ p.2 = d := by
  simp only [date8ListKeep, yyyymmdd, pySorted8, List.mem_mergeSort, pySet,
    List.mem_dedup, List.mem_append, List.mem_map]
  constructor
  · rintro (⟨p, hp, h⟩ | ⟨p, hp, h⟩)
    · exact ⟨p, hp, Or.inl h⟩
    · exact ⟨p, hp, Or.inr h⟩
  · rintro ⟨p, hp, h | h⟩
    · exact Or.inl ⟨p, hp, h⟩
    · exact Or.inr ⟨p, hp, h⟩

theorem cohReindex_ok_length {cl : List CohVal} {coh : List Date12} :
    ∀ {d : List Date12} {bs : List CohVal},
      cohReindex cl coh d = .ok bs → bs.length = d.length := by
  intro d
  induction d with
  | nil => intro bs h; simp [cohReindex] at h; simp [← h]
  | cons i rest ih =>
      intro bs h
      simp only [cohReindex] at h
      cases hlk : cohLookup cl coh i with
      | error e => rw [hlk] at h; exact absurd h (by simp)
      | ok v =>
          rw [hlk] at h
          cases hre : cohReindex cl coh rest with
          | error e => rw [hre] at h; exact absurd h (by simp)
          | ok vs =>
              rw [hre] at h
              cases h
              simp [ih hre]

theorem cohReindex_ok_get {cl : List CohVal} {coh : List Date12} :
    ∀ {d : List Date12} {bs : List CohVal},
      cohReindex cl coh d = .ok bs →
      ∀ (i : Nat) (h1 : i < d.length) (h2 : i < bs.length),
        cohLookup cl coh (d.get ⟨i, h1⟩) = .ok (bs.get ⟨i, h2⟩) := by
  intro d
  induction d with
  | nil => intro bs _ i h1; exact absurd h1 (by simp)
  | cons x rest ih =>
      intro bs h i h1 h2
      simp only [cohReindex] at h
      cases hlk : cohLookup cl coh x with
      | error e => rw [hlk] at h; exact absurd h (by simp)
      | ok v =>
          rw [hlk] at h
          cases hre : cohReindex cl coh rest with
          | error e => rw [hre] at h; exact absurd h (by simp)
          | ok vs =>
              rw [hre] at h
              cases h
              cases i with
              | zero => simpa using hlk
              | succ j =>
                  have h1j : j < rest.length := by simpa using h1
                  have h2j : j < vs.length := by simpa using h2
                  simpa using ih hre j h1j h2j

theorem pyIndex_mem {α : Type} [DecidableEq α] {l : List α} {x : α} (h : x ∈ l) :
    ∃ j, pyIndex l x = .ok j ∧ j < l.length :=
  ⟨l.indexOf x, by simp [pyIndex, if_pos h], List.indexOf_lt_length.mpr h⟩

theorem cohReindex_ok_of_superset {cl : List CohVal} {coh : List Date12}
    (hlen : cl.length = coh.length) :
    ∀ {d : List Date12}, (∀ i ∈ d, i ∈ coh) →
      ∃ bs, cohReindex cl coh d = .ok bs := by
  intro d
  induction d with
  | nil => intro _; exact ⟨[], rfl⟩
  | cons x rest ih =>
      intro hmem
      have hx : x ∈ coh := hmem x (by simp)
      obtain ⟨j, hj, hjlt⟩ := pyIndex_mem hx
      have hjcl : j < cl.length := by omega
      have hlk : cohLookup cl coh x = .ok (cl.get ⟨j, hjcl⟩) := by
        simp only [cohLookup, hj, pyGetItem, List.get?_eq_get hjcl]
      obtain ⟨bs, hbs⟩ := ih (fun i hi => hmem i (by simp [hi]))
      exact ⟨cl.get ⟨j, hjcl⟩ :: bs, by simp only [cohReindex, hlk, hbs]⟩

/-! ## Claim theorems -/

/-- C3: for an HDF5 input, the dropped pair-identifier list computed at
line 196 is exactly the sorted set difference between the pairs read
from the input file and the pairs marked as kept by the internal drop
flags: a pair identifier belongs to it iff it is an input pair that is
not kept, and the list is sorted in the pair order and duplicate-free. -/
theorem date12_drop_eq_sorted_setdiff (date12_list date12_list_keep : List Date12) :
    (∀ x, x ∈ date12ListDrop date12_list date12_list_keep ↔
        x ∈ date12_list ∧ x ∉ date12_list_keep)
    ∧ (date12ListDrop date12_list date12_list_keep).Pairwise (fun a b => date12Le a b = true)
    ∧ (date12ListDrop date12_list date12_list_keep).Nodup := by
  refine ⟨fun x => ?_, ?_, ?_⟩
  · simp only [date12ListDrop, pySorted12, List.mem_mergeSort]
    exact mem_pySetDiff
  · exact List.sorted_mergeSort date12Le_trans date12Le_total _
  · exact (List.mergeSort_perm _ date12Le).symm.nodup (nodup_pySetDiff _ _)

theorem date12_drop_eq_sorted_setdiff_witness :
    ((20070709, 20100901) : Date12) ∈ date12ListDrop [(20070709, 20100901)] [] :=
  ((date12_drop_eq_sorted_setdiff [(20070709, 20100901)] []).1 _).mpr (by simp)

/-- C4: for an HDF5 input, the dropped acquisition-date list computed at
line 204 contains exactly the dates of the full acquisition-date list
that appear as neither endpoint of any kept pair, sorted in date order
and duplicate-free. -/
theorem date8_drop_eq_non_endpoints (date8_list : List Date8)
    (date12_list_keep : List Date12) :
    (∀ d, d ∈ date8ListDrop date8_list date12_list_keep ↔
        d ∈ date8_list ∧ ∀ p ∈ date12_list_keep, p.1 ≠ d ∧ p.2 ≠ d)
    ∧ (date8ListDrop date8_list date12_list_keep).Pairwise (fun a b => date8Le a b = true)
    ∧ (date8ListDrop date8_list date12_list_keep).Nodup := by
  refine ⟨fun d => ?_, ?_, ?_⟩
  · simp only [date8ListDrop, pySorted8, List.mem_mergeSort]
    rw [mem_pySetDiff]
    constructor
    · rintro ⟨hd, hnk⟩
      refine ⟨hd, fun p hp => ⟨fun h1 => ?_, fun h2 => ?_⟩⟩
      · exact hnk (mem_date8ListKeep.mpr ⟨p, hp, Or.inl h1⟩)
      · exact hnk (mem_date8ListKeep.mpr ⟨p, hp, Or.inr h2⟩)
    · rintro ⟨hd, hall⟩
      refine ⟨hd, fun hk => ?_⟩
      obtain ⟨p, hp, h | h⟩ := mem_date8ListKeep.mp hk
      · exact (hall p hp).1 h
      · exact (hall p hp).2 h
  · exact List.sorted_mergeSort date8Le_trans date8Le_total _
  · exact (List.mergeSort_perm _ date8Le).symm.nodup (nodup_pySetDiff _ _)

theorem date8_drop_eq_non_endpoints_witness :
    (20070824 : Date8) ∈ date8ListDrop [20070824] [(20070709, 20100901)] :=
  ((date8_drop_eq_non_endpoints [20070824] [(20070709, 20100901)]).1 _).mpr
    (by simp)

/-- C8: the dropped lists are subsets of the full collections: every
dropped pair identifier occurs in the pair-identifier list read from
the input file, and every dropped date occurs in the full
acquisition-date list. -/
theorem dropped_lists_are_subsets (date8_list : List Date8)
    (date12_list date12_list_keep : List Date12) :
    (∀ x ∈ date12ListDrop date12_list date12_list_keep, x ∈ date12_list)
    ∧ (∀ d ∈ date8ListDrop date8_list date12_list_keep, d ∈ date8_list) := by
  constructor
  · intro x hx
    simp only [date12ListDrop, pySorted12, List.mem_mergeSort] at hx
    exact (mem_pySetDiff.mp hx).1
  · intro d hd
    simp only [date8ListDrop, pySorted8, List.mem_mergeSort] at hd
    exact (mem_pySetDiff.mp hd).1

theorem dropped_lists_are_subsets_witness :
    ((20070709, 20101017) : Date12) ∈ [((20070709, 20101017) : Date12)]
    ∧ (20071009 : Date8) ∈ [(20071009 : Date8)] :=
  ⟨(dropped_lists_are_subsets [20071009] [(20070709, 20101017)] []).1 _
      (by simp [date12ListDrop, pySorted12, List.mem_mergeSort, mem_pySetDiff]),
   (dropped_lists_are_subsets [20071009] [(20070709, 20101017)] []).2 _
      (by simp [date8ListDrop, pySorted8, List.mem_mergeSort, mem_pySetDiff,
                mem_date8ListKeep])⟩

/-- C6: for an HDF5 input whose `FILE_TYPE` attribute is not among the
supported multi-group network file types, the read-info stage raises
`ValueError` (line 172) and the pipeline does not continue. -/
theorem unsupported_file_type_raises (multi_group_hdf5_file : List String)
    (f : NetworkFile) (bl : BaselineList) (cf : Option String)
    (hext : f.ext = ".h5") (hk : f.fileType ∉ multi_group_hdf5_file) :
    readInfoStage multi_group_hdf5_file f bl cf = .error .valueError
    ∧ pipelinePrefix multi_group_hdf5_file f bl cf = .error .valueError := by
  have h1 : readInfoStage multi_group_hdf5_file f bl cf = .error .valueError := by
    simp [readInfoStage, hext, hk]
  exact ⟨h1, by simp [pipelinePrefix, h1]⟩

theorem unsupported_file_type_raises_witness :
    readInfoStage ["interferograms", "coherence", "wrapped"]
        ⟨".h5", "timeseries.h5", "timeseries", [20070709], [0], [], []⟩
        ⟨[], []⟩ none
      = .error .valueError
    ∧ pipelinePrefix ["interferograms", "coherence", "wrapped"]
        ⟨".h5", "timeseries.h5", "timeseries", [20070709], [0], [], []⟩
        ⟨[], []⟩ none
      = .error .valueError :=
  unsupported_file_type_raises _ _ _ _ rfl (by decide)

/-- C9: for a '.he5' input the read-info stage takes the text branch
(only '.h5' is treated as HDF5 there) and never assigns the local `k`,
but the drop-annotation stage still runs for '.he5' and reads `k` at
line 192, so the run fails with an unbound-local error before reaching
any plotting code. -/
theorem he5_input_unbound_k (multi_group_hdf5_file : List String)
    (f : NetworkFile) (bl : BaselineList) (cf : Option String)
    (hext : f.ext = ".he5") :
    pipelinePrefix multi_group_hdf5_file f bl cf = .error .nameError := by
  have hne : ¬ (f.ext = ".h5") := by rw [hext]; decide
  have h1 : readInfoStage multi_group_hdf5_file f bl cf
      = .ok ⟨bl.date8, bl.pbase, none, cf⟩ := by
    simp [readInfoStage, hne]
  have h2 : dropStage f none bl.date8 f.date12 = .error .nameError := by
    simp [dropStage, hext]
  simp [pipelinePrefix, h1, h2]

theorem he5_input_unbound_k_witness :
    pipelinePrefix ["interferograms"]
        ⟨".he5", "ifgram.he5", "interferograms", [20070709], [0],
         [(20070709, 20100901)], [(20070709, 20100901)]⟩
        ⟨[20070106], [0]⟩ none
      = .error .nameError :=
  he5_input_unbound_k _ _ _ _ rfl

/-- C10: for an input that is neither '.h5' nor '.he5' (a text pair
list), the drop-annotation stage is skipped entirely, so both the
dropped acquisition-date list and the dropped pair-identifier list
stay empty. -/
theorem text_input_no_drops (multi_group_hdf5_file : List String)
    (f : NetworkFile) (bl : BaselineList) (cf : Option String)
    (h5 : f.ext ≠ ".h5") (he5 : f.ext ≠ ".he5") :
    pipelinePrefix multi_group_hdf5_file f bl cf
      = .ok (⟨bl.date8, bl.pbase, none, cf⟩, f.date12, [], []) := by
  have h1 : readInfoStage multi_group_hdf5_file f bl cf
      = .ok ⟨bl.date8, bl.pbase, none, cf⟩ := by
    simp [readInfoStage, h5]
  have h2 : dropStage f none bl.date8 f.date12 = .ok ([], []) := by
    simp [dropStage, h5, he5]
  simp [pipelinePrefix, h1, h2]

theorem text_input_no_drops_witness :
    pipelinePrefix []
        ⟨".txt", "ifgram_list.txt", "", [], [],
         [(20070709, 20100901), (20070709, 20101017)], []⟩
        ⟨[20070106, 20070709], [0, 2]⟩ none
      = .ok (⟨[20070106, 20070709], [0, 2], none, none⟩,
             [(20070709, 20100901), (20070709, 20101017)], [], []) :=
  text_input_no_drops _ _ _ _ (by decide) (by decide)

/-- C1 counterexample: the coherence file reports the pairs
[(1,2),(3,4)] (with values 1 and 2) and the input file lists the same
pairs in the opposite order.  The set reported by the coherence file is
a superset (an equal set) of the input's, yet the stage keeps the
coherence list exactly as read instead of reindexing it to the input
order by direct lookup (which would give the reversed list). -/
theorem coherence_superset_reindex_counterexample :
    pySupersetEq [((1:Nat), (2:Nat)), (3, 4)] [((3:Nat), (4:Nat)), (1, 2)] = true
    ∧ coherenceAlignStage [CohVal.val 1, CohVal.val 2] [(1, 2), (3, 4)] [(3, 4), (1, 2)]
        = .ok (some [CohVal.val 1, CohVal.val 2])
    ∧ cohReindex [CohVal.val 1, CohVal.val 2] [(1, 2), (3, 4)] [(3, 4), (1, 2)]
        = .ok [CohVal.val 2, CohVal.val 1]
    ∧ [CohVal.val 1, CohVal.val 2] ≠ [CohVal.val 2, CohVal.val 1] := by
  refine ⟨rfl, rfl, rfl, fun h => ?_⟩
  have h1 : CohVal.val (1:ℚ) = CohVal.val 2 := by injection h
  have h2 : (1:ℚ) = 2 := by injection h1
  norm_num at h2

/-- C1 amended: assuming the coherence read returned at least one
non-NaN value and value/key lists of equal length: when the coherence
file's pair set is not a superset of the input file's, the coherence
list is set to None; when it is a STRICT superset, the list is
reindexed to the input file's pair order by direct lookup; when the two
sets are equal, the list is kept exactly as read, in the coherence
file's own order. -/
theorem coherence_align_superset_cases (coherence_list : List CohVal)
    (coh_date12_list date12_list : List Date12)
    (hnan : coherence_list.all CohVal.isnan = false)
    (hlen : coherence_list.length = coh_date12_list.length) :
    (pySupersetEq coh_date12_list date12_list = false →
        coherenceAlignStage coherence_list coh_date12_list date12_list = .ok none)
    ∧ (pyStrictSuperset coh_date12_list date12_list = true →
        ∃ newl, cohReindex coherence_list coh_date12_list date12_list = .ok newl
          ∧ coherenceAlignStage coherence_list coh_date12_list date12_list
              = .ok (some newl))
    ∧ (pySupersetEq coh_date12_list date12_list = true →
        pyStrictSuperset coh_date12_list date12_list = false →
        coherenceAlignStage coherence_list coh_date12_list date12_list
          = .ok (some coherence_list)) := by
  refine ⟨fun hsup => ?_, fun hst => ?_, fun hsup hst => ?_⟩
  · simp [coherenceAlignStage, hsup]
  · have hsup : pySupersetEq coh_date12_list date12_list = true := by
      simp only [pyStrictSuperset, Bool.and_eq_true] at hst
      exact hst.1
    have hmem : ∀ i ∈ date12_list, i ∈ coh_date12_list := by
      intro i hi
      have := (List.all_eq_true.mp hsup) i hi
      simpa using this
    obtain ⟨bs, hbs⟩ := cohReindex_ok_of_superset hlen hmem
    exact ⟨bs, hbs, by simp [coherenceAlignStage, hsup, hst, hnan, hbs]⟩
  · simp [coherenceAlignStage, hsup, hst, hnan]

theorem coherence_align_superset_cases_witness :
    coherenceAlignStage [CohVal.val 1] [((20070709:Nat), (20100901:Nat))]
        [((20070709:Nat), (20100901:Nat))] = .ok (some [CohVal.val 1]) :=
  (coherence_align_superset_cases [CohVal.val 1] [(20070709, 20100901)]
    [(20070709, 20100901)] rfl rfl).2.2 rfl rfl

/-- C2 counterexample: coherence colouring stays enabled (the stage
returns a list), the 0-th input pair is (30,40), the coherence file
associates value 7 with (30,40), yet the 0-th element of the resulting
coherence list is value 5 — positional alignment with the input file's
pair list is not preserved when the two pair sets are equal but ordered
differently. -/
theorem coherence_alignment_counterexample :
    coherenceAlignStage [CohVal.val 5, CohVal.val 7] [(10, 20), (30, 40)]
        [(30, 40), (10, 20)]
      = .ok (some [CohVal.val 5, CohVal.val 7])
    ∧ ([((30:Nat), (40:Nat)), (10, 20)] : List Date12).get? 0 = some (30, 40)
    ∧ ([CohVal.val 5, CohVal.val 7] : List CohVal).get? 0 = some (CohVal.val 5)
    ∧ cohLookup [CohVal.val 5, CohVal.val 7] [(10, 20), (30, 40)] (30, 40)
        = .ok (CohVal.val 7)
    ∧ CohVal.val 5 ≠ CohVal.val 7 := by
  refine ⟨rfl, rfl, rfl, rfl, fun h => ?_⟩
  have h1 : (5:ℚ) = 7 := by injection h
  norm_num at h1

/-- C2 amended: when coherence colouring remains enabled after the
alignment stage and the coherence file's pair set is a STRICT superset
of the input file's, the i-th element of the resulting coherence list
is exactly the value the coherence file associates with the i-th pair
identifier of the input file (direct lookup); in the set-equality case
the list instead keeps the coherence file's own alignment. -/
theorem coherence_alignment_invariant (coherence_list l : List CohVal)
    (coh_date12_list date12_list : List Date12)
    (hstrict : pyStrictSuperset coh_date12_list date12_list = true)
    (hres : coherenceAlignStage coherence_list coh_date12_list date12_list
        = .ok (some l)) :
    l.length = date12_list.length
    ∧ ∀ (i : Nat) (h1 : i < date12_list.length) (h2 : i < l.length),
        cohLookup coherence_list coh_date12_list (date12_list.get ⟨i, h1⟩)
          = .ok (l.get ⟨i, h2⟩) := by
  have hsup : pySupersetEq coh_date12_list date12_list = true := by
    simp only [pyStrictSuperset, Bool.and_eq_true] at hstrict
    exact hstrict.1
  by_cases hnan : coherence_list.all CohVal.isnan = true
  · exfalso
    simp [coherenceAlignStage, hsup, hstrict, hnan] at hres
  · have hnan : coherence_list.all CohVal.isnan = false :=
      Bool.eq_false_iff.mpr hnan
    cases hre : cohReindex coherence_list coh_date12_list date12_list with
    | error e =>
        exfalso
        simp [coherenceAlignStage, hsup, hstrict, hnan, hre] at hres
    | ok bs =>
        have hbl : bs = l := by
          simp [coherenceAlignStage, hsup, hstrict, hnan, hre] at hres
          exact hres
        subst hbl
        exact ⟨cohReindex_ok_length hre, fun i h1 h2 => cohReindex_ok_get hre i h1 h2⟩

theorem coherence_alignment_invariant_witness :
    cohLookup [CohVal.val 3, CohVal.val 4] [(1, 2), (3, 4)] (3, 4)
      = .ok (CohVal.val 4) := by
  have h := coherence_alignment_invariant [CohVal.val 3, CohVal.val 4] [CohVal.val 4]
    [(1, 2), (3, 4)] [(3, 4)] rfl rfl
  exact h.2 0 (by decide) (by decide)

/-- C5 (code bug): at the failing input — every coherence value NaN
while the coherence file's pair set is a strict superset of the input
file's — line 217 does set the coherence list to None, but line 226
then subscripts that None and the run raises `TypeError`, instead of
continuing with coherence colouring disabled as the warning printed at
line 216 announces. -/
theorem all_nan_coherence_crash :
    ([CohVal.nan] : List CohVal).all CohVal.isnan = true
    ∧ pyStrictSuperset [((1:Nat), (2:Nat)), (3, 4)] [((1:Nat), (2:Nat))] = true
    ∧ coherenceAlignStage [CohVal.nan] [(1, 2), (3, 4)] [(1, 2)]
        = .error .typeError :=
  ⟨rfl, rfl, rfl⟩

/-- C7 counterexample: with `coherence.h5` present on disk and the named
mask file `mask.h5` absent, the gate in front of the coherence read
silently replaces the mask by None and proceeds — no exception
propagates for this missing named input file. -/
theorem missing_mask_silent_fallback :
    coherenceGate ["coherence.h5"] (some "coherence.h5") (some "mask.h5")
      = some none
    ∧ (some "mask.h5" : Option String) ≠ none := by
  refine ⟨by decide, by decide⟩

/-- C7 amended: the gate in front of the coherence read never raises;
a falsy or non-existent coherence file silently skips the coherence
read (leaving colouring disabled), and a present coherence file with a
named but non-existent mask file proceeds with the mask silently
replaced by None. -/
theorem coherence_gate_silent_fallbacks (existing : List String)
    (cf mf : Option String) :
    (pyTruthy cf = false → coherenceGate existing cf mf = none)
    ∧ (cf.getD "" ∉ existing → coherenceGate existing cf mf = none)
    ∧ (pyTruthy cf = true → cf.getD "" ∈ existing → pyTruthy mf = true →
        mf.getD "" ∉ existing → coherenceGate existing cf mf = some none) := by
  refine ⟨fun h => ?_, fun h => ?_, fun h1 h2 h3 h4 => ?_⟩
  · simp [coherenceGate, h]
  · simp [coherenceGate, h]
  · simp [coherenceGate, h1, h2, h3, h4]

theorem coherence_gate_silent_fallbacks_witness :
    coherenceGate ["coh.h5"] (some "coh.h5") (some "msk.h5") = some none :=
  (coherence_gate_silent_fallbacks ["coh.h5"] (some "coh.h5")
    (some "msk.h5")).2.2 (by decide) (by decide) (by decide) (by decide)
